import Mathlib

/-!
Shallow embedding of `src/engine.py` (live-coding musical sequencer core).

Modelling conventions:
- Python floats are modelled as `ℚ` (the spec's arithmetic claims are exact
  equations such as `secPerBeat == 60/bpm`, which are rational).
- A Python exception is modelled as the error channel: an operation that can
  raise returns `Except String _` (or a `× Option String` error component when
  the mutation performed before the raise must be observable).
- The pyo `Pattern(cb, time=period).play()` trigger resource is modelled as a
  `Trigger` record holding the period snapshot the code computed at creation
  and a creation-counter id `tid` (the spec asks for a resource-creation
  counter to check idempotence of `start`).
- Python object identity of a `LiveLoop` is modelled by an allocation id `lid`
  handed out by the registry's allocation counter at construction.
- A user callback (the decorated function) is `Unit → Except String Unit`:
  invoking it either returns or raises.
- The module-level `print(..., file=sys.stderr)` calls are modelled by
  threading a `List String` log.
-/

/-- A user callback: invoking it either succeeds or raises (error string). -/
def Callback : Type := Unit → Except String Unit

/-- The message Python emits for `60.0 / 0.0`. -/
def zeroDivErr : String := "ZeroDivisionError: float division by zero"

/-- `class Clock` (engine.py lines 12-20): `bpm` and the derived
`sec_per_beat`.  (`start_time`/`now()` touch wall-clock time only and are not
needed by any claim.) -/
structure Clock where
  bpm : ℚ
  sec_per_beat : ℚ
deriving DecidableEq, Repr

/-- `Clock.set_bpm` (engine.py lines 16-18):
`self.bpm = float(bpm); self.sec_per_beat = 60.0 / self.bpm`.
The statement order matters: `self.bpm` is assigned first, then the division
is performed; in Python `60.0 / 0.0` raises `ZeroDivisionError`, so for
`bpm = 0` the method raises with the `bpm` field already mutated and
`sec_per_beat` stale.  The returned `Option String` is the raised exception
(`none` = returned normally). -/
def Clock.set_bpm (c : Clock) (bpm : ℚ) : Clock × Option String :=
  let c1 : Clock := { c with bpm := bpm }
  if bpm = 0 then (c1, some zeroDivErr)
  else ({ c1 with sec_per_beat := 60 / bpm }, none)

/-- The argument type of `every(spec)`: an `int`/`float`, or a string. -/
inductive PeriodSpec where
  | num (q : ℚ)
  | str (s : String)

/-- Numeric value of a digit run. -/
def digitsVal (cs : List Char) : Nat :=
  cs.foldl (fun a c => a * 10 + (c.toNat - 48)) 0

/-- Split a leading run of decimal digits from a character list. -/
def takeDigits : List Char → List Char × List Char
  | [] => ([], [])
  | c :: rest =>
      if c.isDigit then
        let p := takeDigits rest
        (c :: p.1, p.2)
      else ([], c :: rest)

/-- Modelled from the Python standard library: the string form of the
`fractions.Fraction` constructor used by `every`, restricted to the forms the
engine's period strings use: optional surrounding spaces, an optional sign, a
digit run, and an optional `/` followed by a digit run (the decimal and
scientific forms of the full grammar are not modelled).  `none` is the
constructor raising (`ValueError` for unparsable text, `ZeroDivisionError`
for a zero denominator). -/
def parseFraction (s : String) : Option ℚ :=
  let cs := ((s.toList.dropWhile (fun c => c = ' ')).reverse.dropWhile
    (fun c => c = ' ')).reverse
  let sp : Int × List Char :=
    match cs with
    | '-' :: r => (-1, r)
    | '+' :: r => (1, r)
    | r => (1, r)
  let pn := takeDigits sp.2
  if pn.1 = [] then none
  else
    let n : Int := sp.1 * (digitsVal pn.1 : Int)
    match pn.2 with
    | [] => some (n : ℚ)
    | '/' :: cs3 =>
        let pd := takeDigits cs3
        if pd.1 = [] ∨ pd.2 ≠ [] then none
        else if digitsVal pd.1 = 0 then none
        else some ((n : ℚ) / (digitsVal pd.1 : ℚ))
    | _ => none

/-- `every(spec)` (engine.py lines 58-60): a numeric spec is returned as
`float(spec)`; otherwise `float(Fraction(spec))`.  There is no positivity
check anywhere in the function. -/
def every (spec : PeriodSpec) : Except String ℚ :=
  match spec with
  | PeriodSpec.num q => Except.ok q
  | PeriodSpec.str s =>
      match parseFraction s with
      | some q => Except.ok q
      | none => Except.error ("ValueError: Invalid literal for Fraction: " ++ s)

/-- The scheduling resource `Pattern(self._tick, time=period_sec).play()`
returns: it stores the period the code computed at creation time and a
creation-counter id. -/
structure Trigger where
  period_sec : ℚ
  tid : Nat
deriving DecidableEq, Repr

/-- `class LiveLoop` (engine.py lines 32-54).  `lid` models Python object
identity (allocated once in `__init__`, never changed by any method). -/
structure LiveLoop where
  lid : Nat
  name : String
  period_beats : ℚ
  is_running : Bool
  pat : Option Trigger
  func : Option Callback

/-- `LiveLoop.__init__(name, every_beats)`: not running, no trigger, no
callback yet. -/
def LiveLoop.new (lid : Nat) (name : String) (every_beats : ℚ) : LiveLoop :=
  { lid := lid, name := name, period_beats := every_beats,
    is_running := false, pat := none, func := none }

/-- The stderr line `f"[{name}] error: {e}"` printed by `_tick`. -/
def errLine (name msg : String) : String :=
  "[" ++ name ++ "] error: " ++ msg

/-- `LiveLoop._tick` (engine.py lines 39-43): `try: if self.func: self.func()
except Exception as e: print(f"[name] error: e", file=sys.stderr)`.
Returns the (unchanged) loop and the log after the tick.  Note the source
checks `self.func`, not `self.is_running`. -/
def LiveLoop._tick (l : LiveLoop) (log : List String) : LiveLoop × List String :=
  match l.func with
  | none => (l, log)
  | some f =>
      match f () with
      | Except.ok _ => (l, log)
      | Except.error e => (l, log ++ [errLine l.name e])

/-- `n` consecutive firings of the loop's trigger: `_tick` iterated,
threading the loop and the log. -/
def tickN : Nat → LiveLoop → List String → LiveLoop × List String
  | 0, l, log => (l, log)
  | n + 1, l, log =>
      let p := l._tick log
      tickN n p.1 p.2

/-- `LiveLoop.start` (engine.py lines 44-48): no-op when already running;
otherwise mark running and build the trigger from the period in beats and the
clock's `sec_per_beat` at call time.  `tid` is the trigger-creation counter;
it is returned incremented exactly when a trigger resource was created. -/
def LiveLoop.start (l : LiveLoop) (clock : Clock) (tid : Nat) : LiveLoop × Nat :=
  if l.is_running then (l, tid)
  else
    let period_sec := l.period_beats * clock.sec_per_beat
    ({ l with is_running := true, pat := some ⟨period_sec, tid⟩ }, tid + 1)

/-- `LiveLoop.stop` (engine.py lines 49-54): clear `is_running`; if a trigger
exists, release it — `try: self._pat.stop() except Exception: pass` — and null
the handle.  `releaseResult` is the outcome of the underlying release call;
the `except Exception: pass` swallows an error outcome, so `stop` is total:
it returns a `LiveLoop` (never an exception) for every release outcome. -/
def LiveLoop.stop (l : LiveLoop) (releaseResult : Except String Unit) : LiveLoop :=
  let l1 : LiveLoop := { l with is_running := false }
  match l1.pat with
  | none => l1
  | some _ =>
      match releaseResult with
      | Except.ok _ => { l1 with pat := none }
      | Except.error _ => { l1 with pat := none }

/-- The in-place redefinition `live_loop` performs on the loop it is (re)using:
`loop.period_beats = beats` and, via the returned decorator, `loop.func = fn`.
No other field is touched. -/
def LiveLoop.redefine (l : LiveLoop) (beats : ℚ) (fn : Callback) : LiveLoop :=
  { l with period_beats := beats, func := some fn }

/-- The `LOOPS` dict: Python dicts preserve insertion order, so the registry
is an insertion-ordered association list from name to loop. -/
abbrev Registry : Type := List (String × LiveLoop)

/-- `LOOPS.get(name)`: first (and, with dict semantics, only) binding of
`name`. -/
def lookupLoop : Registry → String → Option LiveLoop
  | [], _ => none
  | (k, l) :: rest, name => if k = name then some l else lookupLoop rest name

/-- `LOOPS[name] = loop`: replace the binding in place if the key exists,
else append (dict insertion order). -/
def dictSet : Registry → String → LiveLoop → Registry
  | [], name, l => [(name, l)]
  | (k, x) :: rest, name, l =>
      if k = name then (k, l) :: rest else (k, x) :: dictSet rest name l

/-- The engine's module-level mutable state: the clock, the `LOOPS` dict, the
`LiveLoop` allocation counter (object identity), the trigger-creation counter,
the reloader's `_last_mtime`, and the accumulated stderr/stdout log. -/
structure EngineState where
  clock : Clock
  loops : Registry
  next_lid : Nat
  next_tid : Nat
  last_mtime : Option ℚ
  log : List String

/-- One `(name, every_beats, fn)` registration performed by the user module:
`@live_loop(name, every_beats)` applied to `fn`. -/
structure SpecItem where
  name : String
  every_beats : PeriodSpec
  fn : Callback

/-- `live_loop(name, every_beats)` applied to `fn` (engine.py lines 62-70):
`beats = every(every_beats)` (may raise), then
`loop = LOOPS.get(name) or LiveLoop(name, beats)` — reuse the existing object
when the name is present, else allocate a fresh one — then
`loop.period_beats = beats; LOOPS[name] = loop; loop.func = fn`.
Raises (propagates `every`'s exception) without touching the registry. -/
def live_loop (name : String) (every_beats : PeriodSpec) (fn : Callback)
    (st : EngineState) : Except String EngineState :=
  match every every_beats with
  | Except.error e => Except.error e
  | Except.ok beats =>
      match lookupLoop st.loops name with
      | some l =>
          Except.ok { st with loops := dictSet st.loops name (l.redefine beats fn) }
      | none =>
          let l := LiveLoop.new st.next_lid name beats
          Except.ok { st with
            loops := dictSet st.loops name (l.redefine beats fn),
            next_lid := st.next_lid + 1 }

/-- `for lp in LOOPS.values(): lp.start()`, threading the trigger-creation
counter through the loops in registry (insertion) order. -/
def startLoops (clock : Clock) : Registry → Nat → Registry × Nat
  | [], tid => ([], tid)
  | (n, l) :: rest, tid =>
      let p := l.start clock tid
      let q := startLoops clock rest p.2
      ((n, p.1) :: q.1, q.2)

/-- `start_all()` (engine.py lines 72-73). -/
def start_all (st : EngineState) : EngineState :=
  let p := startLoops st.clock st.loops st.next_tid
  { st with loops := p.1, next_tid := p.2 }

/-- `stop_all()` (engine.py lines 75-76); the underlying release calls are
taken to return normally here (a raising release is covered by
`LiveLoop.stop` itself, which swallows it). -/
def stop_all (st : EngineState) : EngineState :=
  { st with loops := st.loops.map (fun p => (p.1, p.2.stop (Except.ok ()))) }

/-- Executing the user module's body: the sequence of `live_loop`
registrations it performs, applied left to right.  An exception raised by a
registration (`every` failing) aborts the rest of the body but keeps the
registrations already performed — Python mutated `LOOPS` as it went.  The
`Option String` is the propagated exception. -/
def applySpecs : List SpecItem → EngineState → EngineState × Option String
  | [], st => (st, none)
  | s :: rest, st =>
      match live_loop s.name s.every_beats s.fn st with
      | Except.error e => (st, some e)
      | Except.ok st1 => applySpecs rest st1

/-- The reload transaction's definition-apply step together with its
surrounding stop-all / start-all (spec §4.3 `applyDefinitions`, realized in
`load_user_code` by `stop_all(); import user_code; start_all()` with each
registration going through `live_loop`). -/
def applyDefinitions (specs : List SpecItem) (st : EngineState) :
    EngineState × Option String :=
  let st1 := stop_all st
  match applySpecs specs st1 with
  | (st2, some e) => (st2, some e)
  | (st2, none) => (start_all st2, none)

/-- `mtime > _last_mtime` guard of `load_user_code` (`_last_mtime is None or
mtime > _last_mtime`). -/
def isNewer (last : Option ℚ) (mtime : ℚ) : Bool :=
  match last with
  | none => true
  | some m => decide (m < mtime)

/-- `load_user_code()` (engine.py lines 83-97).  `fileExists` is
`USER_FILE.exists()`, `mtime` the file's modification time, and
`importOutcome` the result of `importlib.import_module("user_code")`: either
the list of registrations the module body performs, or the exception that
the module load raised (a parse failure — the spec's `DefinitionLoadError`).
Everything from the mtime check onward sits in one `try`, whose handler
prints the load error; on full success the loaded message is printed. -/
def load_user_code (fileExists : Bool) (mtime : ℚ)
    (importOutcome : Except String (List SpecItem)) (st : EngineState) :
    EngineState :=
  if fileExists then
    if isNewer st.last_mtime mtime then
      let st1 : EngineState := { st with last_mtime := some mtime }
      let st2 := stop_all st1
      match importOutcome with
      | Except.error e =>
          { st2 with log := st2.log ++ ["[engine] load error: " ++ e] }
      | Except.ok specs =>
          match applySpecs specs st2 with
          | (st3, some e) =>
              { st3 with log := st3.log ++ ["[engine] load error: " ++ e] }
          | (st3, none) =>
              let st4 := start_all st3
              { st4 with log := st4.log ++ ["[engine] loaded user_code.py"] }
    else st
  else st

/-- The `triggerHandle is non-null iff isRunning` invariant of spec §3. -/
def LiveLoop.inv (l : LiveLoop) : Prop := l.pat.isSome = l.is_running

/-- Concrete fixtures used by witnesses and counterexamples. -/
def cbOk : Callback := fun _ => Except.ok ()

def cbBoom : Callback := fun _ => Except.error "boom"

def clock0 : Clock := { bpm := 130, sec_per_beat := 60 / 130 }

def clock1 : Clock := { bpm := 120, sec_per_beat := 60 / 120 }

def loopA0 : LiveLoop :=
  { lid := 0, name := "A", period_beats := 2, is_running := true,
    pat := some ⟨2 * (60 / 130), 0⟩, func := some cbOk }

def idleA : LiveLoop :=
  { lid := 3, name := "A", period_beats := 1, is_running := false,
    pat := none, func := some cbBoom }

def runningA : LiveLoop :=
  { lid := 5, name := "A", period_beats := 1, is_running := true,
    pat := some ⟨1 * (60 / 130), 4⟩, func := some cbBoom }

def st0 : EngineState :=
  { clock := clock0, loops := [("A", loopA0)], next_lid := 1, next_tid := 1,
    last_mtime := none, log := [] }

/-! ### Helper lemmas (shared across the claim theorems) -/

theorem LiveLoop.stop_eq (l : LiveLoop) (r : Except String Unit) :
    l.stop r = { l with is_running := false, pat := none } := by
  obtain ⟨lid, name, pb, ir, pat, fn⟩ := l
  cases pat <;> cases r <;> rfl

theorem LiveLoop.start_of_not_running (l : LiveLoop) (c : Clock) (t : Nat)
    (h : l.is_running = false) :
    l.start c t = ({ l with is_running := true, pat := some ⟨l.period_beats * c.sec_per_beat, t⟩ }, t + 1) := by
  simp [LiveLoop.start, h]

theorem LiveLoop.start_of_running (l : LiveLoop) (c : Clock) (t : Nat)
    (h : l.is_running = true) : l.start c t = (l, t) := by
  simp [LiveLoop.start, h]

theorem lookupLoop_map (g : LiveLoop → LiveLoop) (r : Registry) (n : String) :
    lookupLoop (r.map (fun p => (p.1, g p.2))) n = (lookupLoop r n).map g := by
  induction r with
  | nil => rfl
  | cons p rest ih =>
      obtain ⟨k, l⟩ := p
      by_cases hk : k = n <;> simp [lookupLoop, hk, ih]

theorem dictSet_lookup_self (r : Registry) (n : String) (l : LiveLoop) :
    lookupLoop (dictSet r n l) n = some l := by
  induction r with
  | nil => simp [dictSet, lookupLoop]
  | cons p rest ih =>
      obtain ⟨k, x⟩ := p
      by_cases hk : k = n <;> simp [dictSet, lookupLoop, hk, ih]

theorem dictSet_lookup_other (r : Registry) (n m : String) (l : LiveLoop)
    (h : m ≠ n) : lookupLoop (dictSet r n l) m = lookupLoop r m := by
  induction r with
  | nil =>
      have hnm : ¬(n = m) := fun hc => h hc.symm
      simp [dictSet, lookupLoop, hnm]
  | cons p rest ih =>
      obtain ⟨k, x⟩ := p
      by_cases hk : k = n
      · subst hk
        have hkm : ¬(k = m) := fun hc => h hc.symm
        simp [dictSet, lookupLoop, hkm]
      · by_cases hm : k = m <;> simp [dictSet, lookupLoop, hk, hm, ih, h]

theorem startLoops_lookup (c : Clock) (r : Registry) (t : Nat) (n : String) :
    ∃ t2, lookupLoop (startLoops c r t).1 n =
      (lookupLoop r n).map (fun l => (l.start c t2).1) := by
  induction r generalizing t with
  | nil => exact ⟨t, rfl⟩
  | cons p rest ih =>
      obtain ⟨k, l⟩ := p
      by_cases hk : k = n
      · exact ⟨t, by simp [startLoops, lookupLoop, hk]⟩
      · obtain ⟨t2, ht2⟩ := ih (l.start c t).2
        exact ⟨t2, by simp [startLoops, lookupLoop, hk, ht2]⟩

theorem stop_all_lookup (st : EngineState) (n : String) :
    lookupLoop (stop_all st).loops n =
      (lookupLoop st.loops n).map (fun l => l.stop (Except.ok ())) := by
  exact lookupLoop_map (fun l => l.stop (Except.ok ())) st.loops n


theorem LiveLoop.tick_fst (l : LiveLoop) (log : List String) :
    (l._tick log).1 = l := by
  cases hf : l.func with
  | none => simp [LiveLoop._tick, hf]
  | some f =>
      cases hr : f () with
      | ok a => simp [LiveLoop._tick, hf, hr]
      | error e => simp [LiveLoop._tick, hf, hr]

theorem LiveLoop.tick_of_error (l : LiveLoop) (log : List String) (f : Callback)
    (e : String) (hf : l.func = some f) (he : f () = Except.error e) :
    l._tick log = (l, log ++ [errLine l.name e]) := by
  simp [LiveLoop._tick, hf, he]

/-! ### Claim theorems -/

/-- C2: a callback failure is caught at the loop boundary: the tick leaves the
loop (its `is_running` flag and its trigger) unchanged and appends exactly one
log line carrying the loop's name and the failure detail; after 5 ticks of an
always-raising callback the loop state is still unchanged (in particular still
Running if it was) and exactly 5 failure lines were logged. -/
theorem tick_isolates_callback_failure (l : LiveLoop) (log : List String)
    (f : Callback) (e : String) (hf : l.func = some f)
    (he : f () = Except.error e) :
    l._tick log = (l, log ++ [errLine l.name e]) ∧
    (tickN 5 l log).1 = l ∧
    (tickN 5 l log).2 = log ++ List.replicate 5 (errLine l.name e) := by
  have h1 : ∀ lg, l._tick lg = (l, lg ++ [errLine l.name e]) :=
    fun lg => LiveLoop.tick_of_error l lg f e hf he
  have hN : ∀ n lg, tickN n l lg = (l, lg ++ List.replicate n (errLine l.name e)) := by
    intro n
    induction n with
    | zero => intro lg; simp [tickN]
    | succ k ih => intro lg; simp [tickN, h1, ih, List.replicate_succ]
  exact ⟨h1 log, by rw [hN 5 log], by rw [hN 5 log]⟩

theorem tick_isolates_callback_failure_witness :
    runningA._tick [] = (runningA, [] ++ [errLine runningA.name "boom"]) ∧
    (tickN 5 runningA []).1 = runningA ∧
    (tickN 5 runningA []).2 = [] ++ List.replicate 5 (errLine runningA.name "boom") :=
  tick_isolates_callback_failure runningA [] cbBoom "boom" rfl rfl

/-- C3 counterexample: the claim says `_tick` checks `is_running` on entry and
never invokes the user callback when it is false.  On the code, a loop with
`is_running = false` and a raising callback still has its callback invoked by
`_tick` — the failure line appears in the log. -/
theorem tick_runs_callback_when_stopped_cex :
    idleA.is_running = false ∧ (idleA._tick []).2 = ["[A] error: boom"] :=
  ⟨rfl, rfl⟩

/-- C3 (amended): `_tick` does not consult `is_running` at all; it invokes the
callback whenever `func` is set, even when `is_running` is false, so an
invocation arriving after `stop()` has returned does execute user logic (its
failure is still caught and logged).  Suppression of late ticks is delegated
to the released trigger, not to an `is_running` check. -/
theorem tick_ignores_is_running (l : LiveLoop) (log : List String)
    (f : Callback) (e : String) (_hr : l.is_running = false)
    (hf : l.func = some f) (he : f () = Except.error e) :
    l._tick log = (l, log ++ [errLine l.name e]) :=
  LiveLoop.tick_of_error l log f e hf he

theorem tick_ignores_is_running_witness :
    idleA._tick [] = (idleA, [] ++ [errLine idleA.name "boom"]) :=
  tick_ignores_is_running idleA [] cbBoom "boom" rfl rfl rfl

/-- C5 counterexample: the claim says `set_bpm` fails with `InvalidTempo` for
every `bpm <= 0` without mutating the clock.  On the code, `set_bpm(-10)`
raises nothing (`none`) and mutates both fields. -/
theorem set_bpm_accepts_nonpositive_cex :
    (clock0.set_bpm (-10)).2 = none ∧ (clock0.set_bpm (-10)).1.bpm = -10 ∧
      (clock0.set_bpm (-10)).1.sec_per_beat = -6 := by
  refine ⟨rfl, rfl, ?_⟩
  norm_num [clock0, Clock.set_bpm]

/-- C5 (amended): `set_bpm` performs no tempo validation.  For every
`bpm ≠ 0` — including every negative tempo — it returns normally with
`bpm` and `sec_per_beat = 60 / bpm` updated (so for `bpm > 0` the spec's
equation `sec_per_beat = 60 / bpm` does hold exactly); for `bpm = 0` it
raises `ZeroDivisionError` (not `InvalidTempo`) after already mutating the
`bpm` field, leaving `sec_per_beat` stale. -/
theorem set_bpm_no_validation (c : Clock) (bpm : ℚ) (h : bpm ≠ 0) :
    c.set_bpm bpm = ({ bpm := bpm, sec_per_beat := 60 / bpm }, none) ∧
      c.set_bpm 0 = ({ c with bpm := 0 }, some zeroDivErr) := by
  constructor
  · simp [Clock.set_bpm, h]
  · simp [Clock.set_bpm]

theorem set_bpm_no_validation_witness :
    clock0.set_bpm (-10) = ({ bpm := -10, sec_per_beat := 60 / (-10) }, none) ∧
      clock0.set_bpm 0 = ({ clock0 with bpm := 0 }, some zeroDivErr) :=
  set_bpm_no_validation clock0 (-10) (by norm_num)

/-- C6 counterexample: the claim says `every` fails with `InvalidPeriodSpec`
for every input whose result would be non-positive.  On the code,
`every(0)` returns `0.0` without any failure. -/
theorem every_accepts_nonpositive_cex :
    every (PeriodSpec.num 0) = Except.ok 0 := rfl

/-- C6 (amended): `every` returns `float(spec)` for a numeric input — with no
positivity check, so non-positive values (0, -3) are returned without error —
and the exact ratio value for a ratio string (`"1/4"` → 1/4, `2` → 2); an
unparsable string such as `"bad"` fails with the `Fraction` constructor's
`ValueError`, there being no `InvalidPeriodSpec` anywhere in the function. -/
theorem every_behavior :
    (∀ q : ℚ, every (PeriodSpec.num q) = Except.ok q) ∧
    every (PeriodSpec.str "1/4") = Except.ok (1 / 4 : ℚ) ∧
    every (PeriodSpec.num 2) = Except.ok 2 ∧
    every (PeriodSpec.num (-3)) = Except.ok (-3) ∧
    (∃ e, every (PeriodSpec.str "bad") = Except.error e) :=
  ⟨fun _ => rfl, rfl, rfl, rfl, ⟨_, rfl⟩⟩

/-- C7: `start()` snapshots the tempo at the moment of the call — the trigger
it builds stores `period_beats * sec_per_beat` of the clock passed to that
call (so a later tempo change cannot affect it, the trigger being a value
built once from that snapshot), and `stop()` followed by `start()` under a
second clock rebuilds the trigger from the second clock's `sec_per_beat`. -/
theorem start_snapshots_tempo (l : LiveLoop) (c1 c2 : Clock) (t : Nat)
    (h : l.is_running = false) :
    ((l.start c1 t).1).pat = some ⟨l.period_beats * c1.sec_per_beat, t⟩ ∧
    ((((l.start c1 t).1).stop (Except.ok ())).start c2 ((l.start c1 t).2)).1.pat =
      some ⟨l.period_beats * c2.sec_per_beat, (l.start c1 t).2⟩ := by
  rw [LiveLoop.start_of_not_running l c1 t h]
  refine ⟨rfl, ?_⟩
  rw [LiveLoop.stop_eq]
  rw [LiveLoop.start_of_not_running _ c2 (t + 1) rfl]

theorem start_snapshots_tempo_witness :
    ((idleA.start clock0 0).1).pat = some ⟨idleA.period_beats * clock0.sec_per_beat, 0⟩ ∧
    ((((idleA.start clock0 0).1).stop (Except.ok ())).start clock1 ((idleA.start clock0 0).2)).1.pat =
      some ⟨idleA.period_beats * clock1.sec_per_beat, (idleA.start clock0 0).2⟩ :=
  start_snapshots_tempo idleA clock0 clock1 0 rfl

/-- C8: `start()` is idempotent — on a loop that is already Running it returns
the loop unchanged (same `is_running`, same trigger handle) and does not
advance the trigger-creation counter, i.e. no second trigger resource is
created. -/
theorem start_idempotent (l : LiveLoop) (c : Clock) (t : Nat)
    (h : l.is_running = true) : l.start c t = (l, t) :=
  LiveLoop.start_of_running l c t h

theorem start_idempotent_witness : runningA.start clock0 7 = (runningA, 7) :=
  start_idempotent runningA clock0 7 rfl

/-- C9: the invariant `triggerHandle is non-null iff isRunning` holds at
construction and is preserved by `start`, `stop`, `_tick`, and the in-place
redefinition `live_loop` performs on a registered loop. -/
theorem trigger_iff_running_invariant :
    (∀ (lid : Nat) (name : String) (beats : ℚ), (LiveLoop.new lid name beats).inv) ∧
    (∀ (l : LiveLoop) (c : Clock) (t : Nat), l.inv → ((l.start c t).1).inv) ∧
    (∀ (l : LiveLoop) (r : Except String Unit), l.inv → (l.stop r).inv) ∧
    (∀ (l : LiveLoop) (log : List String), l.inv → ((l._tick log).1).inv) ∧
    (∀ (l : LiveLoop) (beats : ℚ) (fn : Callback), l.inv → (l.redefine beats fn).inv) := by
  refine ⟨?_, ?_, ?_, ?_, ?_⟩
  · intro lid name beats
    simp [LiveLoop.inv, LiveLoop.new]
  · intro l c t hl
    by_cases h : l.is_running
    · rw [LiveLoop.start_of_running l c t h]
      exact hl
    · have h' : l.is_running = false := by simpa using h
      rw [LiveLoop.start_of_not_running l c t h']
      simp [LiveLoop.inv]
  · intro l r _
    rw [LiveLoop.stop_eq]
    simp [LiveLoop.inv]
  · intro l log hl
    rw [LiveLoop.tick_fst]
    exact hl
  · intro l beats fn hl
    simpa [LiveLoop.inv, LiveLoop.redefine] using hl

theorem trigger_iff_running_invariant_witness :
    (LiveLoop.new 9 "W" 2).inv ∧
    ((runningA.start clock0 0).1).inv ∧
    (runningA.stop (Except.ok ())).inv ∧
    ((runningA._tick []).1).inv ∧
    (runningA.redefine 3 cbOk).inv :=
  ⟨trigger_iff_running_invariant.1 9 "W" 2,
   trigger_iff_running_invariant.2.1 runningA clock0 0 rfl,
   trigger_iff_running_invariant.2.2.1 runningA (Except.ok ()) rfl,
   trigger_iff_running_invariant.2.2.2.1 runningA [] rfl,
   trigger_iff_running_invariant.2.2.2.2 runningA 3 cbOk rfl⟩

/-- C10: `stop()` never propagates an exception: it is a total function of the
loop and the release outcome — even when releasing the trigger resource
raises, the failure is swallowed and the loop comes back with `is_running`
false and a null trigger handle. -/
theorem stop_never_raises (l : LiveLoop) (r : Except String Unit) :
    (l.stop r).is_running = false ∧ (l.stop r).pat = none := by
  rw [LiveLoop.stop_eq]
  exact ⟨rfl, rfl⟩

/-- C4: when importing the fresh definitions fails after the transaction's
stop-all step, `load_user_code` catches the failure: the load error is logged
and every loop in the registry is left stopped (`is_running` false, trigger
handle null) — nothing is started. -/
theorem load_user_code_failure_leaves_all_stopped (st : EngineState)
    (mtime : ℚ) (e : String) (h : isNewer st.last_mtime mtime = true) :
    (∀ p ∈ (load_user_code true mtime (Except.error e) st).loops,
        p.2.is_running = false ∧ p.2.pat = none) ∧
    (load_user_code true mtime (Except.error e) st).log =
      st.log ++ ["[engine] load error: " ++ e] := by
  have hred : load_user_code true mtime (Except.error e) st =
      { stop_all { st with last_mtime := some mtime } with
        log := (stop_all { st with last_mtime := some mtime }).log ++
          ["[engine] load error: " ++ e] } := by
    simp [load_user_code, h]
  constructor
  · intro p hp
    rw [hred] at hp
    simp only [stop_all, List.mem_map] at hp
    obtain ⟨q, _, hpq⟩ := hp
    have h2 : p.2 = q.2.stop (Except.ok ()) := by rw [← hpq]
    rw [h2, LiveLoop.stop_eq]
    exact ⟨rfl, rfl⟩
  · rw [hred]
    simp [stop_all]

theorem load_user_code_failure_leaves_all_stopped_witness :
    (∀ p ∈ (load_user_code true 1 (Except.error "boom") st0).loops,
        p.2.is_running = false ∧ p.2.pat = none) ∧
    (load_user_code true 1 (Except.error "boom") st0).log =
      st0.log ++ ["[engine] load error: " ++ "boom"] :=
  load_user_code_failure_leaves_all_stopped st0 1 "boom" rfl

/-- C1: the reload transaction preserves loop identity across redefinition.
For any registry state containing a loop named "A" (and no "B"), applying the
spec list `[("A", 4, cbA2), ("B", 1, cbB2)]` succeeds; afterwards "A" is
bound to the same LiveLoop object (same allocation id `lid`) with
`period_beats` 4 and callback `cbA2` updated in place, "B" was freshly
created (its `lid` is the allocation counter's next value), and after the
transaction's start-all step both loops are Running. -/
theorem live_loop_redefinition_preserves_identity (st : EngineState)
    (a : LiveLoop) (cbA2 cbB2 : Callback)
    (hA : lookupLoop st.loops "A" = some a)
    (hB : lookupLoop st.loops "B" = none) :
    ∃ st2, applyDefinitions
        [⟨"A", PeriodSpec.num 4, cbA2⟩, ⟨"B", PeriodSpec.num 1, cbB2⟩] st =
        (st2, none) ∧
      (∃ a2, lookupLoop st2.loops "A" = some a2 ∧ a2.lid = a.lid ∧
        a2.period_beats = 4 ∧ a2.func = some cbA2 ∧ a2.is_running = true) ∧
      (∃ b2, lookupLoop st2.loops "B" = some b2 ∧ b2.lid = st.next_lid ∧
        b2.name = "B" ∧ b2.period_beats = 1 ∧ b2.func = some cbB2 ∧
        b2.is_running = true) := by
  have hBA : ("A" : String) ≠ "B" := by decide
  have hAB : ("B" : String) ≠ "A" := by decide
  set st1 := stop_all st with hst1
  set a1 : LiveLoop := (a.stop (Except.ok ())).redefine 4 cbA2 with ha1
  set b1 : LiveLoop := (LiveLoop.new st1.next_lid "B" 1).redefine 1 cbB2 with hb1
  have hA1 : lookupLoop st1.loops "A" = some (a.stop (Except.ok ())) := by
    rw [hst1, stop_all_lookup, hA]; rfl
  have hB1 : lookupLoop st1.loops "B" = none := by
    rw [hst1, stop_all_lookup, hB]; rfl
  have h1 : live_loop "A" (PeriodSpec.num 4) cbA2 st1 =
      Except.ok { st1 with loops := dictSet st1.loops "A" a1 } := by
    simp [live_loop, every, hA1, ha1]
  have hlookB : lookupLoop (dictSet st1.loops "A" a1) "B" = none := by
    rw [dictSet_lookup_other _ _ _ _ hAB]; exact hB1
  have h2 : live_loop "B" (PeriodSpec.num 1) cbB2
        { st1 with loops := dictSet st1.loops "A" a1 } =
      Except.ok { st1 with
        loops := dictSet (dictSet st1.loops "A" a1) "B" b1,
        next_lid := st1.next_lid + 1 } := by
    simp [live_loop, every, hlookB, hb1]
  set stB : EngineState := { st1 with
    loops := dictSet (dictSet st1.loops "A" a1) "B" b1,
    next_lid := st1.next_lid + 1 } with hstB
  have happ : applyDefinitions
      [⟨"A", PeriodSpec.num 4, cbA2⟩, ⟨"B", PeriodSpec.num 1, cbB2⟩] st =
      (start_all stB, none) := by
    simp [applyDefinitions, applySpecs, h1, h2, hstB]
  refine ⟨start_all stB, happ, ?_, ?_⟩
  · -- the redefined "A" after start-all
    have hlookA : lookupLoop stB.loops "B" = some b1 := dictSet_lookup_self _ _ _
    have hlA : lookupLoop stB.loops "A" = some a1 := by
      show lookupLoop (dictSet (dictSet st1.loops "A" a1) "B" b1) "A" = some a1
      rw [dictSet_lookup_other _ _ _ _ hBA]
      exact dictSet_lookup_self _ _ _
    obtain ⟨tA, htA⟩ := startLoops_lookup stB.clock stB.loops stB.next_tid "A"
    rw [hlA] at htA
    have ha1run : a1.is_running = false := by
      rw [ha1]; simp [LiveLoop.stop_eq, LiveLoop.redefine]
    refine ⟨(a1.start stB.clock tA).1, htA, ?_, ?_, ?_, ?_⟩
    · rw [LiveLoop.start_of_not_running _ _ _ ha1run, ha1]
      simp [LiveLoop.stop_eq, LiveLoop.redefine]
    · rw [LiveLoop.start_of_not_running _ _ _ ha1run, ha1]
      simp [LiveLoop.stop_eq, LiveLoop.redefine]
    · rw [LiveLoop.start_of_not_running _ _ _ ha1run, ha1]
      simp [LiveLoop.stop_eq, LiveLoop.redefine]
    · rw [LiveLoop.start_of_not_running _ _ _ ha1run]
  · -- the freshly created "B" after start-all
    have hlB : lookupLoop stB.loops "B" = some b1 := dictSet_lookup_self _ _ _
    obtain ⟨tB, htB⟩ := startLoops_lookup stB.clock stB.loops stB.next_tid "B"
    rw [hlB] at htB
    have hb1run : b1.is_running = false := by
      rw [hb1]; simp [LiveLoop.new, LiveLoop.redefine]
    refine ⟨(b1.start stB.clock tB).1, htB, ?_, ?_, ?_, ?_, ?_⟩
    · rw [LiveLoop.start_of_not_running _ _ _ hb1run, hb1]
      simp [LiveLoop.new, LiveLoop.redefine]
      rw [hst1]
      simp [stop_all]
    · rw [LiveLoop.start_of_not_running _ _ _ hb1run, hb1]
      simp [LiveLoop.new, LiveLoop.redefine]
    · rw [LiveLoop.start_of_not_running _ _ _ hb1run, hb1]
      simp [LiveLoop.new, LiveLoop.redefine]
    · rw [LiveLoop.start_of_not_running _ _ _ hb1run, hb1]
      simp [LiveLoop.new, LiveLoop.redefine]
    · rw [LiveLoop.start_of_not_running _ _ _ hb1run]

theorem live_loop_redefinition_preserves_identity_witness :
    ∃ st2, applyDefinitions
        [⟨"A", PeriodSpec.num 4, cbBoom⟩, ⟨"B", PeriodSpec.num 1, cbOk⟩] st0 =
        (st2, none) ∧
      (∃ a2, lookupLoop st2.loops "A" = some a2 ∧ a2.lid = loopA0.lid ∧
        a2.period_beats = 4 ∧ a2.func = some cbBoom ∧ a2.is_running = true) ∧
      (∃ b2, lookupLoop st2.loops "B" = some b2 ∧ b2.lid = st0.next_lid ∧
        b2.name = "B" ∧ b2.period_beats = 1 ∧ b2.func = some cbOk ∧
        b2.is_running = true) :=
  live_loop_redefinition_preserves_identity st0 loopA0 cbBoom cbOk rfl rfl
